import Mathlib

/-!
Shallow embedding of `legged_lab/scripts/sim2sim.py` (TienKung-Lab sim2sim
runner) and proofs about it.

Modelling conventions:
* numpy float arrays are modelled as `ℕ → ℚ` (exact arithmetic instead of
  floating point) or as `List ℚ` where the length of the array matters;
* the MuJoCo physics engine, the viewer, the keyboard listener and the policy
  network are external collaborators: their outputs enter the model as inputs
  (`SensorData`, the per-step policy output function);
* `np.sin(2*np.pi*x)` and `np.cos(2*np.pi*x)` are modelled by abstract
  functions `sinf cosf : ℚ → ℚ` (the library sine/cosine precomposed with
  multiplication by 2π); theorems that need concrete values of these
  transcendental functions take the needed facts (such as `sinf 0 = 0`)
  as hypotheses.
-/

namespace Sim2Sim

/-- Configuration, from `SimToSimCfg` in sim2sim.py. Structural sizes
(`num_action = 20`, `num_obs_per_step = 78`, `actor_obs_history_length = 10`)
are kept as the separate constants below since the claims fix them. -/
structure SimCfg where
  dt : ℚ
  decimation : ℕ
  clip_observations : ℚ
  clip_actions : ℚ
  action_scale : ℚ
  gait_air_ratio_l : ℚ
  gait_air_ratio_r : ℚ
  gait_phase_offset_l : ℚ
  gait_phase_offset_r : ℚ
  gait_cycle : ℚ

/-- The default values of `SimToSimCfg` (the "walk" preset):
dt = 0.005, decimation = 4, clips = 100, action_scale = 0.25,
air ratios 0.38, phase offsets (0.38, 0.88), cycle 0.85. -/
def defaultCfg : SimCfg where
  dt := 1 / 200
  decimation := 4
  clip_observations := 100
  clip_actions := 100
  action_scale := 1 / 4
  gait_air_ratio_l := 19 / 50
  gait_air_ratio_r := 19 / 50
  gait_phase_offset_l := 19 / 50
  gait_phase_offset_r := 22 / 25
  gait_cycle := 17 / 20

/-- `SimToSimCfg.sim.num_action`. -/
def num_action : ℕ := 20

/-- `SimToSimCfg.sim.num_obs_per_step`. -/
def num_obs_per_step : ℕ := 78

/-- `SimToSimCfg.sim.actor_obs_history_length`. -/
def actor_obs_history_length : ℕ := 10

/-- The `mujoco_to_isaac_idx` table from `init_variables`. -/
def mujoco_to_isaac_idx : List ℕ :=
  [0, 6, 12, 16, 1, 7, 13, 17, 2, 8, 14, 18, 3, 9, 15, 19, 4, 10, 5, 11]

/-- The `isaac_to_mujoco_idx` table from `init_variables`. -/
def isaac_to_mujoco_idx : List ℕ :=
  [0, 4, 8, 12, 16, 18, 1, 5, 9, 13, 17, 19, 2, 6, 10, 14, 3, 7, 11, 15]

/-- The `default_dof_pos` array from `init_variables`:
`[0, -0.5, 0, 1.0, -0.5, 0, 0, -0.5, 0, 1.0, -0.5, 0, 0, 0.1, 0.0, -0.3, 0, -0.1, 0.0, -0.3]`. -/
def default_dof_pos_list : List ℚ :=
  [0, -1/2, 0, 1, -1/2, 0, 0, -1/2, 0, 1, -1/2, 0, 0, 1/10, 0, -3/10, 0, -1/10, 0, -3/10]

/-- `np.clip(x, lo, hi)`. -/
def np_clip (x lo hi : ℚ) : ℚ := min hi (max lo x)

/-- `np.cross` of two 3-vectors. -/
def np_cross (a b : ℕ → ℚ) : ℕ → ℚ := fun i =>
  if i = 0 then a 1 * b 2 - a 2 * b 1
  else if i = 1 then a 2 * b 0 - a 0 * b 2
  else if i = 2 then a 0 * b 1 - a 1 * b 0
  else 0

/-- `np.dot` of two 3-vectors. -/
def np_dot (a b : ℕ → ℚ) : ℚ := a 0 * b 0 + a 1 * b 1 + a 2 * b 2

/-- `quat_rotate_inverse(q, v)` from sim2sim.py: `q_w = q[-1]`, `q_vec = q[:3]`,
`a = v * (2 q_w² - 1)`, `b = cross(q_vec, v) * q_w * 2`,
`c = q_vec * dot(q_vec, v) * 2`, result `a - b + c`.
The quaternion is scalar-last `(x, y, z, w)`. -/
def quat_rotate_inverse (q v : ℕ → ℚ) : ℕ → ℚ := fun i =>
  if i < 3 then
    v i * (2 * q 3 ^ 2 - 1) - np_cross q v i * q 3 * 2 + q i * np_dot q v * 2
  else 0

/-- The mutable attributes of `MujocoRunner` that `init_variables` sets up. -/
structure RunnerState where
  dt : ℚ
  dof_pos : ℕ → ℚ
  dof_vel : ℕ → ℚ
  action : ℕ → ℚ
  default_dof_pos : ℕ → ℚ
  episode_length_buf : ℕ
  gait_phase : ℕ → ℚ
  gait_cycle : ℚ
  phase_ratio : ℕ → ℚ
  phase_offset : ℕ → ℚ
  mujoco_to_isaac : List ℕ
  isaac_to_mujoco : List ℕ
  command_vel : ℕ → ℚ
  obs_history : List ℚ

/-- `init_variables` from sim2sim.py. -/
def init_variables (cfg : SimCfg) : RunnerState where
  dt := (cfg.decimation : ℚ) * cfg.dt
  dof_pos := fun _ => 0
  dof_vel := fun _ => 0
  action := fun _ => 0
  default_dof_pos := fun i => default_dof_pos_list.getD i 0
  episode_length_buf := 0
  gait_phase := fun _ => 0
  gait_cycle := cfg.gait_cycle
  phase_ratio := fun i => [cfg.gait_air_ratio_l, cfg.gait_air_ratio_r].getD i 0
  phase_offset := fun i => [cfg.gait_phase_offset_l, cfg.gait_phase_offset_r].getD i 0
  mujoco_to_isaac := mujoco_to_isaac_idx
  isaac_to_mujoco := isaac_to_mujoco_idx
  command_vel := fun _ => 0
  obs_history := List.replicate (num_obs_per_step * actor_obs_history_length) 0

/-- The sensor readings `get_obs` pulls from the MuJoCo data: the 40-entry
`sensordata` array (joint positions 0..19, joint velocities 20..39), the
`linear-velocity` and `angular-velocity` sensors, and the `orientation`
sensor in MuJoCo's scalar-first order `(w, x, y, z)`. -/
structure SensorData where
  sensordata : ℕ → ℚ
  lin_vel : ℕ → ℚ
  ang_vel : ℕ → ℚ
  orientation : ℕ → ℚ

/-- The reindexing `self.data.sensor("orientation").data[[1, 2, 3, 0]]`,
turning a scalar-first quaternion into scalar-last `(x, y, z, w)`. -/
def xyzw_of_wxyz (q : ℕ → ℚ) : ℕ → ℚ := fun i => q ([1, 2, 3, 0].getD i 0)

/-- The constant vector `np.array([0, 0, -1])` rotated into the body frame. -/
def gravity_vec : ℕ → ℚ := fun i => if i = 2 then -1 else 0

/-- The assignments `self.dof_pos = self.data.sensordata[0:20]` and
`self.dof_vel = self.data.sensordata[20:40]` at the top of `get_obs`. -/
def sense_state (sd : SensorData) (s : RunnerState) : RunnerState :=
  { s with
    dof_pos := fun i => sd.sensordata i
    dof_vel := fun i => sd.sensordata (20 + i) }

/-- The slice assignments of `get_obs` building the 78-entry `obs` array
(started as `np.zeros(78)`), read at index `i`. `sinf`/`cosf` stand for
`np.sin(2π·)`/`np.cos(2π·)`. -/
def compute_obs (cfg : SimCfg) (sinf cosf : ℚ → ℚ) (sd : SensorData)
    (s : RunnerState) : ℕ → ℚ := fun i =>
  if i < 3 then sd.lin_vel i
  else if i < 6 then sd.ang_vel (i - 3)
  else if i < 9 then quat_rotate_inverse (xyzw_of_wxyz sd.orientation) gravity_vec (i - 6)
  else if i < 12 then s.command_vel (i - 9)
  else if i < 32 then
    s.dof_pos (s.mujoco_to_isaac.getD (i - 12) 0) -
      s.default_dof_pos (s.mujoco_to_isaac.getD (i - 12) 0)
  else if i < 52 then s.dof_vel (s.mujoco_to_isaac.getD (i - 32) 0)
  else if i < 72 then np_clip (s.action (i - 52)) (-cfg.clip_actions) cfg.clip_actions
  else if i < 74 then sinf (s.gait_phase (i - 72))
  else if i < 76 then cosf (s.gait_phase (i - 74))
  else if i < 78 then s.phase_ratio (i - 76)
  else 0

/-- The per-step 78-entry observation vector assembled by `get_obs`
(after the `dof_pos`/`dof_vel` assignments). -/
def step_obs (cfg : SimCfg) (sinf cosf : ℚ → ℚ) (sd : SensorData)
    (s : RunnerState) : List ℚ :=
  List.ofFn fun i : Fin 78 => compute_obs cfg sinf cosf sd (sense_state sd s) i.val

/-- `np.roll(l, shift := -(n))` for a 1-d array. -/
def np_roll_neg (n : ℕ) (l : List ℚ) : List ℚ :=
  l.drop (n % l.length) ++ l.take (n % l.length)

/-- The slice assignment `l[-v.length:] = v`. -/
def set_tail (l v : List ℚ) : List ℚ := l.take (l.length - v.length) ++ v

/-- `get_obs` from sim2sim.py. Returns the updated runner state (its
`obs_history` holds the rolled buffer with the new observation written into
the last 78 slots) and the returned array
`np.clip(obs_history, -clip_observations, clip_observations)`. -/
def get_obs (cfg : SimCfg) (sinf cosf : ℚ → ℚ) (sd : SensorData)
    (s : RunnerState) : RunnerState × List ℚ :=
  let s1 := sense_state sd s
  let obs := step_obs cfg sinf cosf sd s
  let hist := set_tail (np_roll_neg num_obs_per_step s1.obs_history) obs
  ({ s1 with obs_history := hist },
    hist.map fun x => np_clip x (-cfg.clip_observations) cfg.clip_observations)

/-- `position_control` from sim2sim.py:
`actions_scaled = action * action_scale; actions_scaled[isaac_to_mujoco_idx] + default_dof_pos`. -/
def position_control (cfg : SimCfg) (s : RunnerState) : ℕ → ℚ := fun i =>
  s.action (s.isaac_to_mujoco.getD i 0) * cfg.action_scale + s.default_dof_pos i

/-- `calculate_gait_para` from sim2sim.py:
`t = episode_length_buf * dt / gait_cycle;
gait_phase[i] = (t + phase_offset[i]) % 1.0` for i = 0, 1. -/
def calculate_gait_para (s : RunnerState) : RunnerState :=
  { s with
    gait_phase := fun i =>
      if i < 2 then
        Int.fract ((s.episode_length_buf : ℚ) * s.dt / s.gait_cycle + s.phase_offset i)
      else s.gait_phase i }

/-- `adjust_command_vel(idx, increment)` from sim2sim.py:
`command_vel[idx] += increment; command_vel[idx] = np.clip(command_vel[idx], -1.0, 1.0)`. -/
def adjust_command_vel (s : RunnerState) (idx : ℕ) (increment : ℚ) : RunnerState :=
  { s with
    command_vel := fun j =>
      if j = idx then np_clip (s.command_vel idx + increment) (-1) 1
      else s.command_vel j }

/-- One iteration of the control loop in `run` (get_obs, policy inference with
output `pol`, action clip; the `decimation` physics sub-steps touch only the
external engine; counter increment; gait update). -/
def loop_step (cfg : SimCfg) (sinf cosf : ℚ → ℚ) (sd : SensorData)
    (pol : ℕ → ℚ) (s : RunnerState) : RunnerState :=
  let go := get_obs cfg sinf cosf sd s
  let s2 := { go.1 with obs_history := go.2 }
  let s3 := { s2 with
    action := fun i => np_clip (pol i) (-cfg.clip_actions) cfg.clip_actions }
  let s4 := { s3 with episode_length_buf := s3.episode_length_buf + 1 }
  calculate_gait_para s4

/-- The runner state after `n` control-loop iterations of `run`, with the
external inputs at iteration `k` given by `ins k` (sensor readings and the
policy output for that iteration). -/
def run_steps (cfg : SimCfg) (sinf cosf : ℚ → ℚ)
    (ins : ℕ → SensorData × (ℕ → ℚ)) : ℕ → RunnerState
  | 0 => init_variables cfg
  | n + 1 =>
      loop_step cfg sinf cosf (ins n).1 (ins n).2 (run_steps cfg sinf cosf ins n)

/-- The sequence of `adjust_command_vel` calls produced by a list of
(index, increment) keyboard events, applied left to right. -/
def apply_events (s : RunnerState) (evs : List (ℕ × ℚ)) : RunnerState :=
  evs.foldl (fun t e => adjust_command_vel t e.1 e.2) s

/-- A concrete unit quaternion (the identity rotation, scalar-last). -/
def unit_quat_example : ℕ → ℚ := fun j => if j = 3 then 1 else 0

/-- A concrete 3-vector. -/
def vec_example : ℕ → ℚ := fun j => (j : ℚ)

/-- A concrete all-zero sensor reading, used to instantiate theorems. -/
def zeroSensor : SensorData where
  sensordata := fun _ => 0
  lin_vel := fun _ => 0
  ang_vel := fun _ => 0
  orientation := fun _ => 0

/-- A concrete sensor reading whose joint-position entries are all 1. -/
def oneSensor : SensorData where
  sensordata := fun _ => 1
  lin_vel := fun _ => 0
  ang_vel := fun _ => 0
  orientation := fun _ => 0

/-- A concrete input stream for the control loop: zero sensors and a policy
stub that always returns the zero action. -/
def zeroIns : ℕ → SensorData × (ℕ → ℚ) := fun _ => (zeroSensor, fun _ => 0)

/-- C1: the two joint-index tables are mutual inverse permutations over the
20 joint indices, and each contains every index in [0, 20) exactly once. -/
theorem joint_tables_mutual_inverse_permutations :
    (∀ i < 20,
      isaac_to_mujoco_idx.getD (mujoco_to_isaac_idx.getD i 0) 0 = i ∧
      mujoco_to_isaac_idx.getD (isaac_to_mujoco_idx.getD i 0) 0 = i) ∧
    (∀ i < 20,
      mujoco_to_isaac_idx.count i = 1 ∧ isaac_to_mujoco_idx.count i = 1) ∧
    mujoco_to_isaac_idx.length = 20 ∧ isaac_to_mujoco_idx.length = 20 := by
  decide

/-- C1 witness: the inverse law instantiated at the concrete index 3. -/
theorem joint_tables_mutual_inverse_permutations_witness :
    isaac_to_mujoco_idx.getD (mujoco_to_isaac_idx.getD 3 0) 0 = 3 ∧
    mujoco_to_isaac_idx.getD (isaac_to_mujoco_idx.getD 3 0) 0 = 3 :=
  joint_tables_mutual_inverse_permutations.1 3 (by decide)

theorem step_obs_length (cfg : SimCfg) (sinf cosf : ℚ → ℚ) (sd : SensorData)
    (s : RunnerState) : (step_obs cfg sinf cosf sd s).length = 78 := by
  simp [step_obs]

theorem step_obs_getD (cfg : SimCfg) (sinf cosf : ℚ → ℚ) (sd : SensorData)
    (s : RunnerState) (j : ℕ) (hj : j < 78) :
    (step_obs cfg sinf cosf sd s).getD j 0 =
      compute_obs cfg sinf cosf sd (sense_state sd s) j := by
  rw [List.getD_eq_getElem _ _ (by simpa [step_obs_length] using hj)]
  simp only [step_obs, List.getElem_ofFn]

/-- C2: the observation vector built by `get_obs` has exactly 78 entries,
partitioned in order into linear velocity [0:3], angular velocity [3:6],
projected gravity [6:9], command velocity [9:12], joint position deltas in
policy order [12:32], joint velocities in policy order [32:52], previous
action clamped [52:72], gait-phase sine [72:74], gait-phase cosine [74:76]
and phase ratio [76:78]. -/
theorem obs_vector_partition (cfg : SimCfg) (sinf cosf : ℚ → ℚ) (sd : SensorData)
    (s : RunnerState) (htab : s.mujoco_to_isaac = mujoco_to_isaac_idx) :
    (step_obs cfg sinf cosf sd s).length = 78 ∧
    (∀ i < 3, (step_obs cfg sinf cosf sd s).getD i 0 = sd.lin_vel i) ∧
    (∀ i < 3, (step_obs cfg sinf cosf sd s).getD (3 + i) 0 = sd.ang_vel i) ∧
    (∀ i < 3, (step_obs cfg sinf cosf sd s).getD (6 + i) 0 =
      quat_rotate_inverse (xyzw_of_wxyz sd.orientation) gravity_vec i) ∧
    (∀ i < 3, (step_obs cfg sinf cosf sd s).getD (9 + i) 0 = s.command_vel i) ∧
    (∀ i < 20, (step_obs cfg sinf cosf sd s).getD (12 + i) 0 =
      sd.sensordata (mujoco_to_isaac_idx.getD i 0) -
        s.default_dof_pos (mujoco_to_isaac_idx.getD i 0)) ∧
    (∀ i < 20, (step_obs cfg sinf cosf sd s).getD (32 + i) 0 =
      sd.sensordata (20 + mujoco_to_isaac_idx.getD i 0)) ∧
    (∀ i < 20, (step_obs cfg sinf cosf sd s).getD (52 + i) 0 =
      np_clip (s.action i) (-cfg.clip_actions) cfg.clip_actions) ∧
    (∀ i < 2, (step_obs cfg sinf cosf sd s).getD (72 + i) 0 =
      sinf (s.gait_phase i)) ∧
    (∀ i < 2, (step_obs cfg sinf cosf sd s).getD (74 + i) 0 =
      cosf (s.gait_phase i)) ∧
    (∀ i < 2, (step_obs cfg sinf cosf sd s).getD (76 + i) 0 =
      s.phase_ratio i) := by
  refine ⟨step_obs_length cfg sinf cosf sd s, ?_, ?_, ?_, ?_, ?_, ?_, ?_, ?_, ?_, ?_⟩
    <;> intro i hi
    <;> rw [step_obs_getD cfg sinf cosf sd s _ (by omega)]
  · have h1 : i < 3 := hi
    simp only [compute_obs, if_pos h1]
  · have h1 : ¬ (3 + i < 3) := by omega
    have h2 : 3 + i < 6 := by omega
    have he : 3 + i - 3 = i := by omega
    simp only [compute_obs, if_neg h1, if_pos h2, he]
  · have h1 : ¬ (6 + i < 3) := by omega
    have h2 : ¬ (6 + i < 6) := by omega
    have h3 : 6 + i < 9 := by omega
    have he : 6 + i - 6 = i := by omega
    simp only [compute_obs, if_neg h1, if_neg h2, if_pos h3, he]
  · have h1 : ¬ (9 + i < 3) := by omega
    have h2 : ¬ (9 + i < 6) := by omega
    have h3 : ¬ (9 + i < 9) := by omega
    have h4 : 9 + i < 12 := by omega
    have he : 9 + i - 9 = i := by omega
    simp only [compute_obs, sense_state, if_neg h1, if_neg h2, if_neg h3, if_pos h4, he]
  · have h1 : ¬ (12 + i < 3) := by omega
    have h2 : ¬ (12 + i < 6) := by omega
    have h3 : ¬ (12 + i < 9) := by omega
    have h4 : ¬ (12 + i < 12) := by omega
    have h5 : 12 + i < 32 := by omega
    have he : 12 + i - 12 = i := by omega
    simp only [compute_obs, sense_state, if_neg h1, if_neg h2, if_neg h3, if_neg h4,
      if_pos h5, he, htab]
  · have h1 : ¬ (32 + i < 3) := by omega
    have h2 : ¬ (32 + i < 6) := by omega
    have h3 : ¬ (32 + i < 9) := by omega
    have h4 : ¬ (32 + i < 12) := by omega
    have h5 : ¬ (32 + i < 32) := by omega
    have h6 : 32 + i < 52 := by omega
    have he : 32 + i - 32 = i := by omega
    simp only [compute_obs, sense_state, if_neg h1, if_neg h2, if_neg h3, if_neg h4,
      if_neg h5, if_pos h6, he, htab]
  · have h1 : ¬ (52 + i < 3) := by omega
    have h2 : ¬ (52 + i < 6) := by omega
    have h3 : ¬ (52 + i < 9) := by omega
    have h4 : ¬ (52 + i < 12) := by omega
    have h5 : ¬ (52 + i < 32) := by omega
    have h6 : ¬ (52 + i < 52) := by omega
    have h7 : 52 + i < 72 := by omega
    have he : 52 + i - 52 = i := by omega
    simp only [compute_obs, sense_state, if_neg h1, if_neg h2, if_neg h3, if_neg h4,
      if_neg h5, if_neg h6, if_pos h7, he]
  · have h1 : ¬ (72 + i < 3) := by omega
    have h2 : ¬ (72 + i < 6) := by omega
    have h3 : ¬ (72 + i < 9) := by omega
    have h4 : ¬ (72 + i < 12) := by omega
    have h5 : ¬ (72 + i < 32) := by omega
    have h6 : ¬ (72 + i < 52) := by omega
    have h7 : ¬ (72 + i < 72) := by omega
    have h8 : 72 + i < 74 := by omega
    have he : 72 + i - 72 = i := by omega
    simp only [compute_obs, sense_state, if_neg h1, if_neg h2, if_neg h3, if_neg h4,
      if_neg h5, if_neg h6, if_neg h7, if_pos h8, he]
  · have h1 : ¬ (74 + i < 3) := by omega
    have h2 : ¬ (74 + i < 6) := by omega
    have h3 : ¬ (74 + i < 9) := by omega
    have h4 : ¬ (74 + i < 12) := by omega
    have h5 : ¬ (74 + i < 32) := by omega
    have h6 : ¬ (74 + i < 52) := by omega
    have h7 : ¬ (74 + i < 72) := by omega
    have h8 : ¬ (74 + i < 74) := by omega
    have h9 : 74 + i < 76 := by omega
    have he : 74 + i - 74 = i := by omega
    simp only [compute_obs, sense_state, if_neg h1, if_neg h2, if_neg h3, if_neg h4,
      if_neg h5, if_neg h6, if_neg h7, if_neg h8, if_pos h9, he]
  · have h1 : ¬ (76 + i < 3) := by omega
    have h2 : ¬ (76 + i < 6) := by omega
    have h3 : ¬ (76 + i < 9) := by omega
    have h4 : ¬ (76 + i < 12) := by omega
    have h5 : ¬ (76 + i < 32) := by omega
    have h6 : ¬ (76 + i < 52) := by omega
    have h7 : ¬ (76 + i < 72) := by omega
    have h8 : ¬ (76 + i < 74) := by omega
    have h9 : ¬ (76 + i < 76) := by omega
    have h10 : 76 + i < 78 := by omega
    have he : 76 + i - 76 = i := by omega
    simp only [compute_obs, sense_state, if_neg h1, if_neg h2, if_neg h3, if_neg h4,
      if_neg h5, if_neg h6, if_neg h7, if_neg h8, if_neg h9, if_pos h10, he]

/-- C2 witness: the partition law instantiated at the freshly initialized
runner state and the all-1 sensor reading, specialized to a few entries. -/
theorem obs_vector_partition_witness :
    (step_obs defaultCfg (fun x => x) (fun x => x) oneSensor
      (init_variables defaultCfg)).length = 78 ∧
    (step_obs defaultCfg (fun x => x) (fun x => x) oneSensor
      (init_variables defaultCfg)).getD (12 + 1) 0 =
      oneSensor.sensordata (mujoco_to_isaac_idx.getD 1 0) -
        (init_variables defaultCfg).default_dof_pos (mujoco_to_isaac_idx.getD 1 0) :=
  ⟨(obs_vector_partition defaultCfg (fun x => x) (fun x => x) oneSensor
      (init_variables defaultCfg) rfl).1,
    (obs_vector_partition defaultCfg (fun x => x) (fun x => x) oneSensor
      (init_variables defaultCfg) rfl).2.2.2.2.2.1 1 (by norm_num)⟩

/-- C5: `position_control` returns exactly the scaled action gathered into
engine order plus the default pose; the all-zeros action yields exactly the
default pose; and the function is pure (two applications to the same state
give identical vectors). -/
theorem position_control_formula (cfg : SimCfg) (s : RunnerState)
    (htab : s.isaac_to_mujoco = isaac_to_mujoco_idx) :
    (∀ i < 20, position_control cfg s i =
      s.action (isaac_to_mujoco_idx.getD i 0) * cfg.action_scale +
        s.default_dof_pos i) ∧
    ((∀ j, s.action j = 0) → ∀ i < 20, position_control cfg s i = s.default_dof_pos i) ∧
    position_control cfg s = position_control cfg s := by
  refine ⟨fun i _ => by simp [position_control, htab], fun ha i _ => ?_, rfl⟩
  simp [position_control, ha]

/-- C5 witness: instantiated at the freshly initialized runner state, whose
action vector is all zeros. -/
theorem position_control_formula_witness :
    position_control defaultCfg (init_variables defaultCfg) 0 =
      (init_variables defaultCfg).action (isaac_to_mujoco_idx.getD 0 0) *
        defaultCfg.action_scale + (init_variables defaultCfg).default_dof_pos 0 ∧
    position_control defaultCfg (init_variables defaultCfg) 5 =
      (init_variables defaultCfg).default_dof_pos 5 :=
  ⟨(position_control_formula defaultCfg (init_variables defaultCfg) rfl).1 0
      (by norm_num),
    (position_control_formula defaultCfg (init_variables defaultCfg) rfl).2.1
      (fun _ => rfl) 5 (by norm_num)⟩

theorem np_clip_unit_mem (x : ℚ) : -1 ≤ np_clip x (-1) 1 ∧ np_clip x (-1) 1 ≤ 1 :=
  ⟨le_min (by norm_num) (le_max_left _ _), min_le_left _ _⟩

theorem apply_events_bounds (evs : List (ℕ × ℚ)) (s : RunnerState)
    (hs : ∀ j, -1 ≤ s.command_vel j ∧ s.command_vel j ≤ 1) :
    ∀ j, -1 ≤ (apply_events s evs).command_vel j ∧
      (apply_events s evs).command_vel j ≤ 1 := by
  induction evs generalizing s with
  | nil => exact hs
  | cons e rest ih =>
      refine ih _ fun j => ?_
      simp only [adjust_command_vel]
      split
      · exact np_clip_unit_mem _
      · exact hs j

/-- C6: starting from the zero command velocity of `init_variables`, after any
sequence of `adjust_command_vel` events with indices in {0, 1, 2} and arbitrary
increments, every component of the command velocity lies in [-1, 1]. -/
theorem command_vel_always_bounded (cfg : SimCfg) (evs : List (ℕ × ℚ))
    (hidx : ∀ e ∈ evs, e.1 < 3) :
    ∀ j < 3, -1 ≤ (apply_events (init_variables cfg) evs).command_vel j ∧
      (apply_events (init_variables cfg) evs).command_vel j ≤ 1 := by
  intro j _
  exact apply_events_bounds evs (init_variables cfg)
    (fun _ => by simp [init_variables]) j

/-- C6 witness: two concrete events with large increments, checked on the
forward component. -/
theorem command_vel_always_bounded_witness :
    -1 ≤ (apply_events (init_variables defaultCfg)
        [(0, 5), (2, -9), (0, -100)]).command_vel 0 ∧
      (apply_events (init_variables defaultCfg)
        [(0, 5), (2, -9), (0, -100)]).command_vel 0 ≤ 1 :=
  command_vel_always_bounded defaultCfg [(0, 5), (2, -9), (0, -100)]
    (by norm_num) 0 (by norm_num)

/-- C7: `quat_rotate_inverse` computes `v(2w² − 1) − 2w(q_vec × v) + 2 q_vec (q_vec · v)`
and, for a unit quaternion, preserves the (squared) Euclidean norm of the
rotated vector. -/
theorem quat_rotate_inverse_norm_preserving (q v : ℕ → ℚ)
    (h : q 0 ^ 2 + q 1 ^ 2 + q 2 ^ 2 + q 3 ^ 2 = 1) :
    (∀ i < 3, quat_rotate_inverse q v i =
      v i * (2 * q 3 ^ 2 - 1) - 2 * q 3 * np_cross q v i + 2 * q i * np_dot q v) ∧
    quat_rotate_inverse q v 0 ^ 2 + quat_rotate_inverse q v 1 ^ 2 +
        quat_rotate_inverse q v 2 ^ 2 =
      v 0 ^ 2 + v 1 ^ 2 + v 2 ^ 2 := by
  constructor
  · intro i hi
    simp only [quat_rotate_inverse, if_pos hi]
    ring
  · simp only [quat_rotate_inverse, np_cross, np_dot]
    norm_num
    linear_combination
      (4 * q 3 ^ 2 * (v 0 ^ 2 + v 1 ^ 2 + v 2 ^ 2) +
        4 * (q 0 * v 0 + q 1 * v 1 + q 2 * v 2) ^ 2) * h

/-- C7 witness: norm preservation at the identity quaternion and the vector
(0, 1, 2). -/
theorem quat_rotate_inverse_norm_preserving_witness :
    quat_rotate_inverse unit_quat_example vec_example 0 ^ 2 +
        quat_rotate_inverse unit_quat_example vec_example 1 ^ 2 +
        quat_rotate_inverse unit_quat_example vec_example 2 ^ 2 =
      vec_example 0 ^ 2 + vec_example 1 ^ 2 + vec_example 2 ^ 2 :=
  (quat_rotate_inverse_norm_preserving unit_quat_example vec_example
    (by norm_num [unit_quat_example])).2

/-- C8: for every runner state (hence every elapsed step count and every
configured offset) with a positive cycle length, each gait phase written by
`calculate_gait_para` lies in [0, 1). -/
theorem gait_phase_in_unit_interval (s : RunnerState) (hc : 0 < s.gait_cycle)
    (i : ℕ) (hi : i < 2) :
    0 ≤ (calculate_gait_para s).gait_phase i ∧
      (calculate_gait_para s).gait_phase i < 1 := by
  simp only [calculate_gait_para, if_pos hi]
  exact ⟨Int.fract_nonneg _, Int.fract_lt_one _⟩

/-- C8 witness: the left-leg phase of the freshly initialized default runner. -/
theorem gait_phase_in_unit_interval_witness :
    0 ≤ (calculate_gait_para (init_variables defaultCfg)).gait_phase 0 ∧
      (calculate_gait_para (init_variables defaultCfg)).gait_phase 0 < 1 :=
  gait_phase_in_unit_interval (init_variables defaultCfg)
    (by norm_num [init_variables, defaultCfg]) 0 (by norm_num)

theorem hist_update_eq (l obs : List ℚ) (hl : l.length = 780) (ho : obs.length = 78) :
    set_tail (np_roll_neg num_obs_per_step l) obs = l.drop 78 ++ obs := by
  have h78 : num_obs_per_step % l.length = 78 := by
    rw [hl]; norm_num [num_obs_per_step]
  have hdl : (l.drop 78).length = 702 := by rw [List.length_drop, hl]
  unfold set_tail np_roll_neg
  rw [h78]
  have hX : (l.drop 78 ++ l.take 78).length = 780 := by
    rw [List.length_append, hdl, List.length_take, hl]
    omega
  rw [hX, ho]
  norm_num
  rw [List.take_left' hdl]

theorem loop_step_obs_history (cfg : SimCfg) (sinf cosf : ℚ → ℚ)
    (sd : SensorData) (pol : ℕ → ℚ) (s : RunnerState)
    (hl : s.obs_history.length = 780) :
    (loop_step cfg sinf cosf sd pol s).obs_history =
      (s.obs_history.drop 78 ++ step_obs cfg sinf cosf sd s).map
        (fun x => np_clip x (-cfg.clip_observations) cfg.clip_observations) := by
  simp only [loop_step, get_obs, sense_state, calculate_gait_para]
  rw [hist_update_eq _ _ hl (step_obs_length cfg sinf cosf sd s)]

theorem run_steps_obs_history_length (cfg : SimCfg) (sinf cosf : ℚ → ℚ)
    (ins : ℕ → SensorData × (ℕ → ℚ)) :
    ∀ n, (run_steps cfg sinf cosf ins n).obs_history.length = 780 := by
  intro n
  induction n with
  | zero =>
      simp only [run_steps, init_variables]
      rw [List.length_replicate]
      norm_num [num_obs_per_step, actor_obs_history_length]
  | succ n ih =>
      simp only [run_steps]
      rw [loop_step_obs_history _ _ _ _ _ _ ih]
      simp [List.length_append, ih, step_obs_length]

/-- C3: after any number of control-loop iterations the observation history
has exactly 10 × 78 = 780 entries; after each update the last 78 entries are
the newly assembled observation vector clamped to ±clip_observations, and the
first 702 entries are the last 702 entries of the previous clamped history
(oldest dropped, newest appended). -/
theorem obs_history_ring_buffer (cfg : SimCfg) (sinf cosf : ℚ → ℚ)
    (ins : ℕ → SensorData × (ℕ → ℚ)) (n : ℕ) :
    (run_steps cfg sinf cosf ins n).obs_history.length = 780 ∧
    (run_steps cfg sinf cosf ins (n + 1)).obs_history.drop 702 =
      (step_obs cfg sinf cosf (ins n).1 (run_steps cfg sinf cosf ins n)).map
        (fun x => np_clip x (-cfg.clip_observations) cfg.clip_observations) ∧
    (run_steps cfg sinf cosf ins (n + 1)).obs_history.take 702 =
      ((run_steps cfg sinf cosf ins n).obs_history.map
        (fun x => np_clip x (-cfg.clip_observations) cfg.clip_observations)).drop 78 := by
  refine ⟨run_steps_obs_history_length cfg sinf cosf ins n, ?_, ?_⟩
  · simp only [run_steps]
    rw [loop_step_obs_history _ _ _ _ _ _ (run_steps_obs_history_length cfg sinf cosf ins n)]
    rw [List.map_append]
    exact List.drop_left' (by
      simp [List.length_map, List.length_drop,
        run_steps_obs_history_length cfg sinf cosf ins n])
  · simp only [run_steps]
    rw [loop_step_obs_history _ _ _ _ _ _ (run_steps_obs_history_length cfg sinf cosf ins n)]
    rw [List.map_append, ← List.map_drop]
    exact List.take_left' (by
      simp [List.length_map, List.length_drop,
        run_steps_obs_history_length cfg sinf cosf ins n])

theorem run_steps_consts (cfg : SimCfg) (sinf cosf : ℚ → ℚ)
    (ins : ℕ → SensorData × (ℕ → ℚ)) :
    ∀ n, (run_steps cfg sinf cosf ins n).dt = (cfg.decimation : ℚ) * cfg.dt ∧
      (run_steps cfg sinf cosf ins n).gait_cycle = cfg.gait_cycle ∧
      (run_steps cfg sinf cosf ins n).phase_offset =
        (fun i => [cfg.gait_phase_offset_l, cfg.gait_phase_offset_r].getD i 0) ∧
      (run_steps cfg sinf cosf ins n).episode_length_buf = n := by
  intro n
  induction n with
  | zero => exact ⟨rfl, rfl, rfl, rfl⟩
  | succ n ih =>
      simp only [run_steps, loop_step, get_obs, sense_state, calculate_gait_para]
      exact ⟨ih.1, ih.2.1, ih.2.2.1, by rw [ih.2.2.2]⟩

/-- C4: after the n-th control-loop iteration (n ≥ 1) and for each side
s ∈ {0, 1}, the gait phase equals
`fract(n * (decimation * dt) / gait_cycle + phase_offset[s])`, and the
episode counter has been incremented exactly once per iteration (it equals n). -/
theorem gait_phase_after_steps (cfg : SimCfg) (sinf cosf : ℚ → ℚ)
    (ins : ℕ → SensorData × (ℕ → ℚ)) (n : ℕ) (hn : 1 ≤ n) :
    (∀ s < 2, (run_steps cfg sinf cosf ins n).gait_phase s =
      Int.fract ((n : ℚ) * ((cfg.decimation : ℚ) * cfg.dt) / cfg.gait_cycle +
        [cfg.gait_phase_offset_l, cfg.gait_phase_offset_r].getD s 0)) ∧
    (run_steps cfg sinf cosf ins n).episode_length_buf = n := by
  refine ⟨?_, (run_steps_consts cfg sinf cosf ins n).2.2.2⟩
  obtain ⟨m, rfl⟩ : ∃ m, n = m + 1 := ⟨n - 1, by omega⟩
  intro s hs
  have hc := run_steps_consts cfg sinf cosf ins m
  simp only [run_steps, loop_step, get_obs, sense_state, calculate_gait_para]
  rw [if_pos hs]
  rw [hc.1, hc.2.1, hc.2.2.1, hc.2.2.2]

/-- C4 witness: one iteration with the default configuration and stub inputs;
the left-side phase obeys the formula and the counter is 1. -/
theorem gait_phase_after_steps_witness :
    (run_steps defaultCfg (fun _ => 0) (fun _ => 1) zeroIns 1).gait_phase 0 =
      Int.fract ((1 : ℚ) * ((defaultCfg.decimation : ℚ) * defaultCfg.dt) /
          defaultCfg.gait_cycle +
        [defaultCfg.gait_phase_offset_l, defaultCfg.gait_phase_offset_r].getD 0 0) ∧
    (run_steps defaultCfg (fun _ => 0) (fun _ => 1) zeroIns 1).episode_length_buf = 1 :=
  ⟨(gait_phase_after_steps defaultCfg (fun _ => 0) (fun _ => 1) zeroIns 1
      (by norm_num)).1 0 (by norm_num),
    (gait_phase_after_steps defaultCfg (fun _ => 0) (fun _ => 1) zeroIns 1
      (by norm_num)).2⟩

/-- C9 counterexample: `get_obs` does not leave everything but the history
unchanged — it also overwrites the cached `dof_pos` (and `dof_vel`) from the
sensor array. At the freshly initialized state (dof_pos = 0) and a sensor
reading of all ones, `dof_pos[0]` changes from 0 to 1. -/
theorem get_obs_mutates_dof_pos :
    (get_obs defaultCfg (fun x => x) (fun x => x) oneSensor
        (init_variables defaultCfg)).1.dof_pos 0 ≠
      (init_variables defaultCfg).dof_pos 0 := by
  simp only [get_obs, sense_state, init_variables, oneSensor]
  norm_num

/-- C9 amended: `get_obs` mutates only the observation history and the cached
sensor copies `dof_pos`/`dof_vel`; the action vector, command velocity, gait
phase, phase ratio, phase offsets, default pose, joint-index tables, episode
counter, macro-dt and cycle length are all unchanged; the physics-engine
state enters only as the read-only input `sd`. -/
theorem get_obs_frame (cfg : SimCfg) (sinf cosf : ℚ → ℚ) (sd : SensorData)
    (s : RunnerState) :
    (get_obs cfg sinf cosf sd s).1.action = s.action ∧
    (get_obs cfg sinf cosf sd s).1.command_vel = s.command_vel ∧
    (get_obs cfg sinf cosf sd s).1.gait_phase = s.gait_phase ∧
    (get_obs cfg sinf cosf sd s).1.phase_ratio = s.phase_ratio ∧
    (get_obs cfg sinf cosf sd s).1.phase_offset = s.phase_offset ∧
    (get_obs cfg sinf cosf sd s).1.default_dof_pos = s.default_dof_pos ∧
    (get_obs cfg sinf cosf sd s).1.mujoco_to_isaac = s.mujoco_to_isaac ∧
    (get_obs cfg sinf cosf sd s).1.isaac_to_mujoco = s.isaac_to_mujoco ∧
    (get_obs cfg sinf cosf sd s).1.episode_length_buf = s.episode_length_buf ∧
    (get_obs cfg sinf cosf sd s).1.dt = s.dt ∧
    (get_obs cfg sinf cosf sd s).1.gait_cycle = s.gait_cycle ∧
    (get_obs cfg sinf cosf sd s).1.dof_pos = (fun i => sd.sensordata i) ∧
    (get_obs cfg sinf cosf sd s).1.dof_vel = (fun i => sd.sensordata (20 + i)) :=
  ⟨rfl, rfl, rfl, rfl, rfl, rfl, rfl, rfl, rfl, rfl, rfl, rfl, rfl⟩

/-- C10: before the first gait update has ever run both gait phase scalars are
exactly 0, so (for any configured offsets and cycle length) the first
observation has gait sine features (0, 0) and cosine features (1, 1);
`sinf 0 = 0` and `cosf 0 = 1` are the defining values of `sin(2π·)`/`cos(2π·)`
at 0. -/
theorem initial_gait_features (cfg : SimCfg) (sinf cosf : ℚ → ℚ)
    (hs : sinf 0 = 0) (hc : cosf 0 = 1) (sd : SensorData) :
    (init_variables cfg).gait_phase 0 = 0 ∧
    (init_variables cfg).gait_phase 1 = 0 ∧
    (step_obs cfg sinf cosf sd (init_variables cfg)).getD 72 0 = 0 ∧
    (step_obs cfg sinf cosf sd (init_variables cfg)).getD 73 0 = 0 ∧
    (step_obs cfg sinf cosf sd (init_variables cfg)).getD 74 0 = 1 ∧
    (step_obs cfg sinf cosf sd (init_variables cfg)).getD 75 0 = 1 := by
  refine ⟨rfl, rfl, ?_, ?_, ?_, ?_⟩ <;>
    rw [step_obs_getD _ _ _ _ _ _ (by norm_num)] <;>
    simp [compute_obs, sense_state, init_variables, hs, hc]

/-- C10 witness: the cosine feature at index 74 of the first observation is 1,
with the default configuration and stub sensors. -/
theorem initial_gait_features_witness :
    (step_obs defaultCfg (fun _ => 0) (fun _ => 1) zeroSensor
      (init_variables defaultCfg)).getD 74 0 = 1 :=
  (initial_gait_features defaultCfg (fun _ => 0) (fun _ => 1) rfl rfl
    zeroSensor).2.2.2.2.1

end Sim2Sim
